import Mathlib

/-!
# Verification of `videojs-event-tracking` (pause tracking and performance aggregation)

Shallow embedding of the two source modules:

* `PauseTracking` (src/tracking/pause.js): a debounce state machine over the
  host player's `play`/`pause`/`loadstart`/`ended`/`dispose` events, emitting
  `tracking:pause` and `tracking:unpause`.
* `PerformanceTracking` (src/tracking/performance.js): a session aggregator
  over host events and derived `tracking:*` events, delivering snapshots to a
  consumer callback.

Modelling conventions:

* Wall-clock time (`Date.now()`) is milliseconds as `Nat`; durations divided by
  1000 become exact rationals (JS floats modelled as `ℚ`).
* `setTimeout` is modelled by a multiset of pending timers, each a pair of a
  fresh numeric id and its firing deadline.  The JS variable `timer` holds only
  the id of the most recently created timer; `clearTimeout(timer)` removes
  exactly that id from the pending set.  This mirrors the source faithfully:
  the source never clears a timer except inside `reset`.
* The event loop is single-threaded: before an external event at time `t` is
  handled, every pending timer whose deadline is `≤ t` fires (in creation
  order, which for monotone traces is deadline order).
-/

namespace EventTracking

/-- Events the pause tracker can emit on the player bus
(`player.trigger("tracking:pause" | "tracking:unpause", {pauseTime, pauseCount})`). -/
inductive PEmit where
  | pause (pauseTime : ℚ) (pauseCount : ℕ)
  | unpause (pauseTime : ℚ) (pauseCount : ℕ)
  deriving Repr, DecidableEq

/-- The closure state of `PauseTracking`: the local variables `pauseTime`,
`pauseCount`, `initPauseTime`, `timer`, `locked`, plus the runtime's set of
pending `setTimeout` callbacks (`pending`) and a fresh-id counter for timer
handles (`nextId`). -/
structure PauseState where
  pauseTime : ℚ
  pauseCount : ℕ
  initPauseTime : Option ℕ
  pending : List (ℕ × ℕ)
  timerVar : Option ℕ
  nextId : ℕ
  locked : Bool
  deriving Repr, DecidableEq

/-- Initial closure state: all counters zero, no pending timer, `timer = null`,
`locked = false`. -/
def pauseInit : PauseState :=
  { pauseTime := 0, pauseCount := 0, initPauseTime := none,
    pending := [], timerVar := none, nextId := 0, locked := false }

/-- `reset` (src/tracking/pause.js lines 23-31): `if (timer) clearTimeout(timer)`
then zero the counters and the suppression flag.  Only the timer whose handle
is currently stored in `timer` is cleared; the variable itself is not nulled. -/
def pauseReset (s : PauseState) : PauseState :=
  { s with
    pending :=
      match s.timerVar with
      | some i => s.pending.filter (fun p => p.1 ≠ i)
      | none => s.pending
    pauseTime := 0
    pauseCount := 0
    initPauseTime := none
    locked := false }

/-- The `play` handler (lines 43-49): if a pause had been confirmed
(`initPauseTime !== null`), add `(Date.now() - initPauseTime) / 1000` to
`pauseTime`, emit `tracking:unpause`, and clear `initPauseTime`.
It does NOT touch the pending timer. -/
def handlePlay (s : PauseState) (now : ℕ) : PauseState × List PEmit :=
  match s.initPauseTime with
  | some t0 =>
      let pt : ℚ := s.pauseTime + ((now : ℚ) - (t0 : ℚ)) / 1000
      ({ s with pauseTime := pt, initPauseTime := none },
        [PEmit.unpause pt s.pauseCount])
  | none => (s, [])

/-- The `pause` handler (lines 50-60): if `isSeeking() || locked`, return;
otherwise `timer = setTimeout(callback, 300)`.  The previously stored timer
handle is overwritten WITHOUT `clearTimeout`. -/
def handlePause (s : PauseState) (now : ℕ) (seeking scrubbing : Bool) :
    PauseState × List PEmit :=
  if seeking || scrubbing || s.locked then (s, [])
  else
    ({ s with
        pending := s.pending ++ [(s.nextId, now + 300)]
        timerVar := some s.nextId
        nextId := s.nextId + 1 }, [])

/-- The debounce timer callback (lines 55-59), fired at its deadline `d`:
`pauseCount++; initPauseTime = Date.now();
player.trigger("tracking:pause", {pauseTime, pauseCount})`.
A fired timer is removed from the runtime's pending set. -/
def fireTimer (s : PauseState) (i d : ℕ) : PauseState × List PEmit :=
  ({ s with
      pauseCount := s.pauseCount + 1
      initPauseTime := some d
      pending := s.pending.filter (fun p => p.1 ≠ i) },
    [PEmit.pause s.pauseTime (s.pauseCount + 1)])

/-- Fire, in order, every pending timer whose deadline is at most `t`; each
fires at its own deadline. -/
def fireDue (s : PauseState) (t : ℕ) : PauseState × List PEmit :=
  (s.pending.filter (fun p => p.2 ≤ t)).foldl
    (fun acc p =>
      let r := fireTimer acc.1 p.1 p.2
      (r.1, acc.2 ++ r.2))
    (s, [])

/-- Raw player events consumed by the pause tracker. -/
inductive PEvent where
  | play
  | pause (seeking scrubbing : Bool)
  | loadstart
  | ended
  | dispose
  deriving Repr, DecidableEq

/-- Deliver one timed external event: first fire the timers due by time `t`,
then run the registered handler for the event. -/
def pauseStep (s : PauseState) (t : ℕ) (e : PEvent) : PauseState × List PEmit :=
  let f := fireDue s t
  let r :=
    match e with
    | PEvent.play => handlePlay f.1 t
    | PEvent.pause sk sc => handlePause f.1 t sk sc
    | PEvent.loadstart => (pauseReset f.1, [])
    | PEvent.ended => (pauseReset f.1, [])
    | PEvent.dispose => (pauseReset f.1, [])
  (r.1, f.2 ++ r.2)

/-- Run a timed trace of external events from a given state, collecting all
emissions in order. -/
def pauseRun (s : PauseState) (tr : List (ℕ × PEvent)) : PauseState × List PEmit :=
  tr.foldl
    (fun acc te =>
      let r := pauseStep acc.1 te.1 te.2
      (r.1, acc.2 ++ r.2))
    (s, [])

/-- Run a timed trace from the initial state and then let wall-clock time
advance to `tEnd`, firing whatever timers come due. -/
def pauseRunDrain (tr : List (ℕ × PEvent)) (tEnd : ℕ) : PauseState × List PEmit :=
  let r := pauseRun pauseInit tr
  let f := fireDue r.1 tEnd
  (f.1, r.2 ++ f.2)

/-!
## Performance aggregator (`PerformanceTracking`, src/tracking/performance.js)
-/

/-- JavaScript's `x.toFixed(0)` followed by unary `+`, on an exact rational:
round to the nearest integer, ties toward the larger value (ECMA-262 picks the
larger candidate on a tie), which is Mathlib's `round`. -/
def jsToFixed0 (q : ℚ) : ℤ := round q

/-- `+(x).toFixed(3)`: round to the nearest multiple of 1/1000, ties up. -/
def jsToFixed3 (q : ℚ) : ℚ := (round (q * 1000) : ℚ) / 1000

/-- The session record owned by `PerformanceTracking`: its closure variables.
`uuid.v4()` is modelled as a fresh counter: `session` takes a value never used
by any earlier session of this tracker. -/
structure PerfState where
  session : ℕ
  seekCount : ℤ
  pauseTime : ℚ
  pauseCount : ℤ
  bufferCount : ℤ
  totalDuration : ℤ
  watchedDuration : ℕ
  bufferDuration : ℚ
  initialLoadTime : ℚ
  timestamps : List ℤ
  deriving Repr, DecidableEq

/-- State at construction: `session = v4()` (first fresh id), all counters 0,
empty watched-seconds list. -/
def perfInit : PerfState :=
  { session := 0, seekCount := 0, pauseTime := 0, pauseCount := 0,
    bufferCount := 0, totalDuration := 0, watchedDuration := 0,
    bufferDuration := 0, initialLoadTime := 0, timestamps := [] }

/-- `reset` (performance.js lines 117-129): fresh `session = v4()`, every
counter zeroed, timestamps emptied. -/
def perfReset (s : PerfState) : PerfState :=
  { session := s.session + 1, seekCount := 0, pauseTime := 0, pauseCount := 0,
    bufferCount := 0, bufferDuration := 0, timestamps := [],
    totalDuration := 0, watchedDuration := 0, initialLoadTime := 0 }

/-- The `data` object built by `trigger` (lines 131-145): one field per session
variable, holding its current value. -/
structure Snapshot where
  session : ℕ
  pauseTime : ℚ
  pauseCount : ℤ
  seekCount : ℤ
  bufferCount : ℤ
  totalDuration : ℤ
  watchedDuration : ℕ
  bufferDuration : ℚ
  initialLoadTime : ℚ
  deriving Repr, DecidableEq

/-- `trigger`: snapshot the current session record
(`config.performance.call(player, data)` delivers exactly this value,
synchronously, in the same handler turn). -/
def trigger (s : PerfState) : Snapshot :=
  { session := s.session, pauseTime := s.pauseTime, pauseCount := s.pauseCount,
    seekCount := s.seekCount, bufferCount := s.bufferCount,
    totalDuration := s.totalDuration, watchedDuration := s.watchedDuration,
    bufferDuration := s.bufferDuration, initialLoadTime := s.initialLoadTime }

/-- A JavaScript value appearing in the delivered `data` object: the opaque
session identifier (a uuid string, modelled as the fresh counter) or a number. -/
inductive JsVal where
  | id (n : ℕ)
  | num (q : ℚ)
  deriving Repr, DecidableEq

/-- The delivered object as the JS engine sees it: an ordered list of
`(property key, value)` pairs, exactly mirroring the object literal
`{ session, pauseTime, pauseCount, seekCount, bufferCount, totalDuration,
watchedDuration, bufferDuration, initialLoadTime }` in `trigger`
(shorthand properties: each key is the variable's own name). -/
def snapshotFields (d : Snapshot) : List (String × JsVal) :=
  [("session", JsVal.id d.session),
   ("pauseTime", JsVal.num d.pauseTime),
   ("pauseCount", JsVal.num (d.pauseCount : ℚ)),
   ("seekCount", JsVal.num (d.seekCount : ℚ)),
   ("bufferCount", JsVal.num (d.bufferCount : ℚ)),
   ("totalDuration", JsVal.num (d.totalDuration : ℚ)),
   ("watchedDuration", JsVal.num (d.watchedDuration : ℚ)),
   ("bufferDuration", JsVal.num d.bufferDuration),
   ("initialLoadTime", JsVal.num d.initialLoadTime)]

/-- Resolved configuration after the construction guards ran. `triggerInterval`
is a JS number; the claims only exercise whole numbers, so it is carried as an
integer. -/
structure PerfCfg where
  triggerOnPause : Bool
  triggerInterval : ℤ
  deriving Repr, DecidableEq

/-- JS `watchedDuration % triggerInterval === 0` for a non-negative integer
`watchedDuration`: false when the divisor is 0 (the remainder is then `NaN`,
which compares unequal to 0), otherwise exact divisibility. -/
def intervalHit (w : ℕ) (ti : ℤ) : Bool :=
  if ti = 0 then false else (w : ℤ) % ti == 0

/-- Events consumed by the aggregator: host player events (with the value the
handler queries from the player attached) and derived `tracking:*` events with
their payload fields. -/
inductive QEvent where
  | loadstart
  | loadeddata (duration : ℚ)
  | timeupdate (currentTime : ℚ)
  | ended
  | dispose
  | beforeunload
  | trackingSeek (seekCount : ℤ)
  | trackingPause (pauseCount : ℤ)
  | trackingUnpause (pauseTime : ℚ) (pauseCount : ℤ)
  | trackingBuffered (bufferCount : ℤ) (secondsToLoad : ℚ)
  | trackingFirstplay (secondsToLoad : ℚ)
  deriving Repr, DecidableEq

/-- One registered handler invocation (performance.js lines 159-203), returning
the new session record and the deliveries made during the handler, in order. -/
def stepPerf (cfg : PerfCfg) (s : PerfState) (e : QEvent) :
    PerfState × List Snapshot :=
  match e with
  | QEvent.loadstart =>
      (perfReset s, if 0 < s.totalDuration then [trigger s] else [])
  | QEvent.ended => (perfReset s, [trigger s])
  | QEvent.dispose => (perfReset s, [trigger s])
  | QEvent.beforeunload => (perfReset s, [trigger s])
  | QEvent.timeupdate ct =>
      let cur := jsToFixed0 ct
      if cur ∈ s.timestamps then (s, [])
      else
        let ts := s.timestamps ++ [cur]
        let s1 := { s with timestamps := ts, watchedDuration := ts.length }
        (s1, if intervalHit ts.length cfg.triggerInterval then [trigger s1] else [])
  | QEvent.loadeddata d => ({ s with totalDuration := jsToFixed0 d }, [])
  | QEvent.trackingSeek n => ({ s with seekCount := n }, [])
  | QEvent.trackingPause n =>
      let s1 := { s with pauseCount := n }
      (s1, if cfg.triggerOnPause then [trigger s1] else [])
  | QEvent.trackingUnpause pt n =>
      ({ s with pauseTime := pt, pauseCount := n }, [])
  | QEvent.trackingBuffered n stl =>
      ({ s with bufferCount := n,
                bufferDuration := jsToFixed3 (s.bufferDuration + stl) }, [])
  | QEvent.trackingFirstplay stl => ({ s with initialLoadTime := stl }, [])

/-- Run a trace of events through the aggregator, collecting deliveries. -/
def runPerf (cfg : PerfCfg) (s : PerfState) (tr : List QEvent) :
    PerfState × List Snapshot :=
  tr.foldl
    (fun acc e =>
      let r := stepPerf cfg acc.1 e
      (r.1, acc.2 ++ r.2))
    (s, [])

/-- The raw `config` object as far as the construction guards inspect it:
whether `config.performance` is a callable function, and the
`triggerOnPause` / `triggerInterval` entries (`none` models an absent entry or
one of the wrong `typeof`). -/
structure RawConfig where
  performanceIsFunction : Bool
  triggerOnPause : Option Bool
  triggerInterval : Option ℤ
  deriving Repr, DecidableEq

/-- The construction guards (performance.js lines 91-102): with `config`
undefined or `config.performance` not a function, the constructor returns
before registering any handler (`none`); otherwise the config entries are
resolved against their defaults (`triggerOnPause` true, `triggerInterval` 10). -/
def mkPerfCfg (cfg : Option RawConfig) : Option PerfCfg :=
  match cfg with
  | none => none
  | some c =>
      if c.performanceIsFunction then
        some { triggerOnPause := c.triggerOnPause.getD true,
               triggerInterval := c.triggerInterval.getD 10 }
      else none

/-- All callback invocations a freshly constructed tracker performs on a trace:
none at all when the construction guards deactivated it. -/
def perfDeliveries (cfg : Option RawConfig) (tr : List QEvent) : List Snapshot :=
  match mkPerfCfg cfg with
  | none => []
  | some p => (runPerf p perfInit tr).2

/-- The rounded second-marks observed by the aggregator since the last
reset-inducing event (`loadstart`, `ended`, `dispose`, page unload), in
arrival order and with repetitions. -/
def obsStep (acc : List ℤ) (e : QEvent) : List ℤ :=
  match e with
  | QEvent.timeupdate ct => acc ++ [jsToFixed0 ct]
  | QEvent.loadstart => []
  | QEvent.ended => []
  | QEvent.dispose => []
  | QEvent.beforeunload => []
  | _ => acc

/-- All rounded second-marks observed since the last reset over a whole trace. -/
def obsSecs (tr : List QEvent) : List ℤ :=
  tr.foldl obsStep []

/-- State component of `runPerf`, without the collected deliveries. -/
def runPerfSt (cfg : PerfCfg) (s : PerfState) (tr : List QEvent) : PerfState :=
  tr.foldl (fun s e => (stepPerf cfg s e).1) s

/-!
## Claim theorems
-/

/-- C1: the claim states that a raw pause (not seeking, unlocked) followed by a
raw play within the 300 ms debounce window yields zero `tracking:pause` and
zero `tracking:unpause` events and leaves `pauseCount` unchanged.  The code
violates this: the `play` handler never calls `clearTimeout`, so on the trace
"pause at 0 ms, play at 100 ms" the pending timer still fires at 300 ms,
emitting one `tracking:pause` and raising `pauseCount` to 1. -/
theorem c1_play_does_not_cancel_pending_pause :
    (pauseRunDrain [(0, PEvent.pause false false), (100, PEvent.play)] 1000).2
        = [PEmit.pause 0 1] ∧
    (pauseRunDrain [(0, PEvent.pause false false), (100, PEvent.play)] 1000).1.pauseCount
        = 1 := by
  decide

/-- C3: the claim states at most one pending debounce timer ever exists, so two
raw pause events with no intervening play or reset cannot leave two timers
outstanding.  The code violates this: the `pause` handler overwrites the
`timer` handle without clearing the previous timeout, so after pauses at 0 ms
and 100 ms two timers are pending; both fire, `pauseCount` reaches 2 and two
`tracking:pause` events are emitted for what the spec counts as one pause. -/
theorem c3_second_pause_leaves_two_timers :
    (pauseRun pauseInit
        [(0, PEvent.pause false false), (100, PEvent.pause false false)]).1.pending.length
        = 2 ∧
    (pauseRunDrain
        [(0, PEvent.pause false false), (100, PEvent.pause false false)] 1000).1.pauseCount
        = 2 ∧
    (pauseRunDrain
        [(0, PEvent.pause false false), (100, PEvent.pause false false)] 1000).2
        = [PEmit.pause 0 1, PEmit.pause 0 2] := by
  decide

/-- C6: a raw pause that arrives while the player reports seeking or scrubbing,
or while the suppression flag (`locked`) is set, is ignored entirely: no timer
is started, the state is unchanged, and nothing is emitted. -/
theorem c6_seeking_or_locked_pause_ignored (s : PauseState) (now : ℕ)
    (sk sc : Bool) (h : sk = true ∨ sc = true ∨ s.locked = true) :
    handlePause s now sk sc = (s, []) := by
  rcases h with h | h | h <;> simp [handlePause, h]

/-- Witness for C6 at a concrete input: a pause at 5 ms with the player
reporting seeking leaves the initial state untouched. -/
theorem c6_seeking_or_locked_pause_ignored_witness :
    handlePause pauseInit 5 true false = (pauseInit, []) :=
  c6_seeking_or_locked_pause_ignored pauseInit 5 true false (Or.inl rfl)

/-- C10: a `tracking:pause` emission carries the `pauseTime` accumulated from
previously completed pauses only: the timer callback emits the pre-existing
`pauseTime` unchanged and does not modify it, the pause handler never touches
`pauseTime`, and `pauseTime` grows only in the play handler when it ends a
confirmed pause (`initPauseTime` set), by `(now - initPauseTime)/1000`.
Concretely, on "pause at 0, play at 5000 ms" the confirmation at 300 ms emits
`tracking:pause` with `pauseTime = 0` (excluding the 4.7 s pause then in
progress), and the play emits `tracking:unpause` with `pauseTime = 4.7`. -/
theorem c10_pause_payload_excludes_current_pause (s : PauseState)
    (i d now : ℕ) (sk sc : Bool) :
    (fireTimer s i d).2 = [PEmit.pause s.pauseTime (s.pauseCount + 1)] ∧
    (fireTimer s i d).1.pauseTime = s.pauseTime ∧
    (handlePause s now sk sc).1.pauseTime = s.pauseTime ∧
    (handlePlay s now).1.pauseTime =
      (match s.initPauseTime with
       | none => s.pauseTime
       | some t0 => s.pauseTime + ((now : ℚ) - (t0 : ℚ)) / 1000) ∧
    (pauseRunDrain [(0, PEvent.pause false false), (5000, PEvent.play)] 5000).2
        = [PEmit.pause 0 1, PEmit.unpause (47/10) 1] := by
  refine ⟨rfl, rfl, ?_, ?_, ?_⟩
  · unfold handlePause
    split <;> rfl
  · unfold handlePlay
    cases s.initPauseTime <;> rfl
  · simp [pauseRunDrain, pauseRun, pauseStep, fireDue, fireTimer, handlePlay,
      handlePause, pauseInit]
    norm_num

/-- C2: `ended` and `dispose` deliver the current session's snapshot and then
reset unconditionally; `loadstart` delivers then resets exactly when the prior
session's `totalDuration` is positive and only resets otherwise; every reset
regenerates the session identifier. -/
theorem c2_terminal_flush_then_reset (cfg : PerfCfg) (s : PerfState) :
    stepPerf cfg s QEvent.ended = (perfReset s, [trigger s]) ∧
    stepPerf cfg s QEvent.dispose = (perfReset s, [trigger s]) ∧
    stepPerf cfg s QEvent.loadstart
        = (perfReset s, if 0 < s.totalDuration then [trigger s] else []) ∧
    (perfReset s).session ≠ s.session := by
  refine ⟨rfl, rfl, rfl, ?_⟩
  simp [perfReset]

/-- Counterexample for C7: the delivered object's session-identifier key is
`session`, not `sessionId` — a consumer reading `data.sessionId` from the
snapshot delivered on `ended` finds no such property. -/
theorem c7_counterexample_key_is_session :
    perfDeliveries
        (some { performanceIsFunction := true, triggerOnPause := none,
                triggerInterval := none }) [QEvent.ended]
        = [trigger perfInit] ∧
    "sessionId" ∉ (snapshotFields (trigger perfInit)).map Prod.fst := by
  constructor
  · decide
  · decide

/-- C7 (amended): every delivery passes the snapshot object whose properties
are exactly `session`, `pauseTime`, `pauseCount`, `seekCount`, `bufferCount`,
`totalDuration`, `watchedDuration`, `bufferDuration`, `initialLoadTime` — in
that order — each holding the session record's current value. -/
theorem c7_snapshot_has_exact_fields (s : PerfState) :
    (snapshotFields (trigger s)).map Prod.fst
        = ["session", "pauseTime", "pauseCount", "seekCount", "bufferCount",
           "totalDuration", "watchedDuration", "bufferDuration",
           "initialLoadTime"] ∧
    snapshotFields (trigger s)
        = [("session", JsVal.id s.session),
           ("pauseTime", JsVal.num s.pauseTime),
           ("pauseCount", JsVal.num (s.pauseCount : ℚ)),
           ("seekCount", JsVal.num (s.seekCount : ℚ)),
           ("bufferCount", JsVal.num (s.bufferCount : ℚ)),
           ("totalDuration", JsVal.num (s.totalDuration : ℚ)),
           ("watchedDuration", JsVal.num (s.watchedDuration : ℚ)),
           ("bufferDuration", JsVal.num s.bufferDuration),
           ("initialLoadTime", JsVal.num s.initialLoadTime)] :=
  ⟨rfl, rfl⟩

/-- Counterexample for C8: a configuration whose `performance` entry is a
function but whose `triggerInterval` entry is not numeric does NOT deactivate
the aggregator — construction succeeds with the default interval 10 and the
callback is still invoked (here, on `ended`). -/
theorem c8_counterexample_nonnumeric_interval_stays_active :
    mkPerfCfg (some { performanceIsFunction := true, triggerOnPause := none,
                      triggerInterval := none })
        = some { triggerOnPause := true, triggerInterval := 10 } ∧
    perfDeliveries
        (some { performanceIsFunction := true, triggerOnPause := none,
                triggerInterval := none }) [QEvent.ended] ≠ [] := by
  constructor
  · decide
  · decide

/-- C8 (amended): an undefined configuration or a non-callable `performance`
entry silently deactivates the aggregator — no handler is registered and the
callback is never invoked on any trace; a non-numeric `triggerInterval` entry,
by contrast, silently falls back to the default 10 and leaves the aggregator
active. -/
theorem c8_construction_guards (tr : List QEvent) (tp : Option Bool)
    (ti : Option ℤ) :
    perfDeliveries none tr = [] ∧
    perfDeliveries
        (some { performanceIsFunction := false, triggerOnPause := tp,
                triggerInterval := ti }) tr = [] ∧
    mkPerfCfg (some { performanceIsFunction := true, triggerOnPause := tp,
                      triggerInterval := none })
        = some { triggerOnPause := tp.getD true, triggerInterval := 10 } := by
  refine ⟨rfl, ?_, ?_⟩
  · simp [perfDeliveries, mkPerfCfg]
  · simp [mkPerfCfg]

/-- The divisibility test `intervalHit` with the default interval 10 agrees
with the natural-number remainder test. -/
theorem intervalHit_ten (n : ℕ) : intervalHit n 10 = true ↔ n % 10 = 0 := by
  unfold intervalHit
  norm_num
  omega

/-- C4: with `triggerInterval = 10`, a `timeupdate` that inserts a new
second-mark raises `watchedDuration` to one more than the old set's size and
invokes the callback (exactly once) precisely when the resulting
`watchedDuration` is a multiple of 10 — so the transition 9 → 10 fires and the
values 1 through 9 do not. -/
theorem c4_interval_flush_at_multiples_of_ten (tp : Bool) (s : PerfState)
    (ct : ℚ) (h : jsToFixed0 ct ∉ s.timestamps) :
    (stepPerf { triggerOnPause := tp, triggerInterval := 10 } s
        (QEvent.timeupdate ct)).1.watchedDuration = s.timestamps.length + 1 ∧
    (stepPerf { triggerOnPause := tp, triggerInterval := 10 } s
        (QEvent.timeupdate ct)).2
      = (if (s.timestamps.length + 1) % 10 = 0
         then [trigger (stepPerf { triggerOnPause := tp, triggerInterval := 10 }
             s (QEvent.timeupdate ct)).1]
         else []) := by
  constructor
  · simp [stepPerf, h]
  · by_cases hm : (s.timestamps.length + 1) % 10 = 0
    · have hit : intervalHit (s.timestamps.length + 1) 10 = true :=
        (intervalHit_ten _).mpr hm
      simp [stepPerf, h, hm, hit]
    · have hit : intervalHit (s.timestamps.length + 1) 10 = false := by
        rcases Bool.eq_false_or_eq_true (intervalHit (s.timestamps.length + 1) 10)
          with ht | hf
        · exact absurd ((intervalHit_ten _).mp ht) hm
        · exact hf
      simp [stepPerf, h, hm, hit]

/-- Witness for C4 at a concrete input: with nine seconds already watched,
a `timeupdate` at the fresh position 9 s raises `watchedDuration` to 10 and
delivers exactly one snapshot. -/
theorem c4_interval_flush_at_multiples_of_ten_witness :
    (stepPerf { triggerOnPause := true, triggerInterval := 10 }
        { session := 0, seekCount := 0, pauseTime := 0, pauseCount := 0,
          bufferCount := 0, totalDuration := 0, watchedDuration := 9,
          bufferDuration := 0, initialLoadTime := 0,
          timestamps := [0, 1, 2, 3, 4, 5, 6, 7, 8] }
        (QEvent.timeupdate 9)).1.watchedDuration = 10 ∧
    (stepPerf { triggerOnPause := true, triggerInterval := 10 }
        { session := 0, seekCount := 0, pauseTime := 0, pauseCount := 0,
          bufferCount := 0, totalDuration := 0, watchedDuration := 9,
          bufferDuration := 0, initialLoadTime := 0,
          timestamps := [0, 1, 2, 3, 4, 5, 6, 7, 8] }
        (QEvent.timeupdate 9)).2
      = [trigger (stepPerf { triggerOnPause := true, triggerInterval := 10 }
          { session := 0, seekCount := 0, pauseTime := 0, pauseCount := 0,
            bufferCount := 0, totalDuration := 0, watchedDuration := 9,
            bufferDuration := 0, initialLoadTime := 0,
            timestamps := [0, 1, 2, 3, 4, 5, 6, 7, 8] }
          (QEvent.timeupdate 9)).1] := by
  have h := c4_interval_flush_at_multiples_of_ten true
    { session := 0, seekCount := 0, pauseTime := 0, pauseCount := 0,
      bufferCount := 0, totalDuration := 0, watchedDuration := 9,
      bufferDuration := 0, initialLoadTime := 0,
      timestamps := [0, 1, 2, 3, 4, 5, 6, 7, 8] }
    9 (by norm_num [jsToFixed0])
  refine ⟨h.1.trans (by norm_num), h.2.trans (by norm_num)⟩

theorem runPerf_foldl_fst (cfg : PerfCfg) (tr : List QEvent) :
    ∀ p : PerfState × List Snapshot,
      (tr.foldl
          (fun acc e =>
            let r := stepPerf cfg acc.1 e
            (r.1, acc.2 ++ r.2)) p).1
        = runPerfSt cfg p.1 tr := by
  induction tr with
  | nil => intro p; rfl
  | cons e tr ih =>
      intro p
      simp only [List.foldl_cons, runPerfSt] at ih ⊢
      exact ih _

theorem runPerf_fst (cfg : PerfCfg) (s : PerfState) (tr : List QEvent) :
    (runPerf cfg s tr).1 = runPerfSt cfg s tr := by
  unfold runPerf
  exact runPerf_foldl_fst cfg tr (s, [])

/-- One aggregator step preserves the watched-seconds invariant: the
timestamps list stays duplicate-free, its members are exactly the second-marks
observed since the last reset, and `watchedDuration` stays equal to its
length. -/
theorem stepPerf_timestamps_inv (cfg : PerfCfg) (s : PerfState) (e : QEvent)
    (acc : List ℤ) (h1 : s.timestamps.Nodup)
    (h2 : s.timestamps.toFinset = acc.toFinset)
    (h3 : s.watchedDuration = s.timestamps.length) :
    (stepPerf cfg s e).1.timestamps.Nodup ∧
    (stepPerf cfg s e).1.timestamps.toFinset = (obsStep acc e).toFinset ∧
    (stepPerf cfg s e).1.watchedDuration
      = (stepPerf cfg s e).1.timestamps.length := by
  cases e with
  | timeupdate ct =>
      by_cases hm : jsToFixed0 ct ∈ s.timestamps
      · have hacc : jsToFixed0 ct ∈ acc.toFinset := by
          rw [← h2]
          simpa using hm
        refine ⟨?_, ?_, ?_⟩ <;> simp [stepPerf, obsStep, hm, h1, h3]
        rw [h2]
        simp [Finset.union_eq_left, Finset.singleton_subset_iff, hacc]
      · have hnd : (s.timestamps ++ [jsToFixed0 ct]).Nodup := by
          simp [List.nodup_append, h1, hm]
        refine ⟨?_, ?_, ?_⟩ <;> simp [stepPerf, obsStep, hm, hnd, h2, h3]
  | loadstart => simp [stepPerf, perfReset, obsStep]
  | ended => simp [stepPerf, perfReset, obsStep]
  | dispose => simp [stepPerf, perfReset, obsStep]
  | beforeunload => simp [stepPerf, perfReset, obsStep]
  | loadeddata d => exact ⟨h1, by simpa [stepPerf, obsStep] using h2, h3⟩
  | trackingSeek n => exact ⟨h1, by simpa [stepPerf, obsStep] using h2, h3⟩
  | trackingPause n => exact ⟨h1, by simpa [stepPerf, obsStep] using h2, h3⟩
  | trackingUnpause pt n => exact ⟨h1, by simpa [stepPerf, obsStep] using h2, h3⟩
  | trackingBuffered n stl => exact ⟨h1, by simpa [stepPerf, obsStep] using h2, h3⟩
  | trackingFirstplay stl => exact ⟨h1, by simpa [stepPerf, obsStep] using h2, h3⟩

theorem runPerfSt_watched_inv (cfg : PerfCfg) (tr : List QEvent) :
    ∀ (s : PerfState) (acc : List ℤ),
      s.timestamps.Nodup → s.timestamps.toFinset = acc.toFinset →
      s.watchedDuration = s.timestamps.length →
      (runPerfSt cfg s tr).timestamps.Nodup ∧
      (runPerfSt cfg s tr).timestamps.toFinset
        = (tr.foldl obsStep acc).toFinset ∧
      (runPerfSt cfg s tr).watchedDuration
        = (runPerfSt cfg s tr).timestamps.length := by
  induction tr with
  | nil => intro s acc h1 h2 h3; exact ⟨h1, h2, h3⟩
  | cons e tr ih =>
      intro s acc h1 h2 h3
      have hs := stepPerf_timestamps_inv cfg s e acc h1 h2 h3
      simp only [runPerfSt, List.foldl_cons] at ih ⊢
      exact ih _ _ hs.1 hs.2.1 hs.2.2

/-- C5: processing `timeupdate` a second time for the same rounded position is
a complete no-op (so the same second never counts twice), and over any event
trace `watchedDuration` equals the number of distinct rounded second-marks
observed since the last reset. -/
theorem c5_watched_duration_counts_distinct_seconds (cfg : PerfCfg)
    (s : PerfState) (ct : ℚ) (tr : List QEvent) :
    stepPerf cfg (stepPerf cfg s (QEvent.timeupdate ct)).1 (QEvent.timeupdate ct)
        = ((stepPerf cfg s (QEvent.timeupdate ct)).1, []) ∧
    (runPerf cfg perfInit tr).1.watchedDuration = (obsSecs tr).toFinset.card := by
  constructor
  · by_cases hm : jsToFixed0 ct ∈ s.timestamps
    · simp [stepPerf, hm]
    · simp [stepPerf, hm]
  · have h := runPerfSt_watched_inv cfg tr perfInit []
      (by simp [perfInit]) (by simp [perfInit]) rfl
    rw [runPerf_fst cfg perfInit tr, h.2.2]
    simp only [obsSecs]
    rw [← h.2.1]
    exact (List.toFinset_card_of_nodup h.1).symm

/-- Counterexample for C9: after `tracking:firstplay` sets `initialLoadTime`
to 2.5, a second `tracking:firstplay` in the same session changes it to 7 —
the claim's "subsequent events leave it unchanged" fails. -/
theorem c9_counterexample_second_firstplay_overwrites :
    (runPerf { triggerOnPause := true, triggerInterval := 10 } perfInit
        [QEvent.trackingFirstplay (5/2),
         QEvent.trackingFirstplay 7]).1.initialLoadTime = 7 ∧
    (7 : ℚ) ≠ 5/2 := by
  refine ⟨rfl, ?_⟩
  norm_num

/-- C9 (amended): the `tracking:firstplay` handler unconditionally adopts the
payload's `secondsToLoad` (last writer wins, no first-write guard); the
at-most-once-per-session property holds only because the external deriver
fires the event once per session. -/
theorem c9_firstplay_last_writer_wins (cfg : PerfCfg) (s : PerfState) (v : ℚ) :
    stepPerf cfg s (QEvent.trackingFirstplay v)
        = ({ s with initialLoadTime := v }, []) :=
  rfl

end EventTracking
